import Mathlib

/-!
Verification of the COVID-19 data tool (`src/data_functions.py`,
`src/haversine.py`, `run.py`) against its natural-language specification.

Python dictionaries are modelled as association lists with in-place value
replacement (`aupdate`): updating an existing key keeps its position, a new
key is appended at the end, matching CPython's insertion-ordered `dict`.
CSV numeric fields are modelled by their parsed values: decimal `float`
fields as rationals (cast to `ℝ` where the code does arithmetic on them),
`int` fields as integers.  Files are modelled by their parsed line lists;
a path that does not exist is an absent (`none`) file.
-/

deriving instance DecidableEq for Except

namespace Covid

/-- `d[k]` lookup on a Python-dict model: first binding of `k`, if any. -/
def alookup {β : Type} : List (String × β) → String → Option β
  | [], _ => none
  | (k, v) :: rest, key => if k = key then some v else alookup rest key

/-- `d[k] = v` on a Python-dict model: replace in place, else append. -/
def aupdate {β : Type} (key : String) (v : β) : List (String × β) → List (String × β)
  | [] => [(key, v)]
  | (k, w) :: rest => if k = key then (k, v) :: rest else (k, w) :: aupdate key v rest

/-- Keys of a dict model, in insertion order. -/
def akeys {β : Type} (l : List (String × β)) : List String := l.map Prod.fst

/-- `covid_dict[state][county]` / `geo_dict[state][county]`: two-level lookup. -/
def alookup2 {β : Type} (d : List (String × List (String × β))) (s c : String) :
    Option β :=
  match alookup d s with
  | none => none
  | some inner => alookup inner c

/-- Each key of the outer dict and of every inner dict occurs once. -/
def dictKeysNodup {β : Type} (d : List (String × List (String × β))) : Prop :=
  (akeys d).Nodup ∧ ∀ p ∈ d, (akeys p.2).Nodup

/-! ## Geocode ingestion (`CovidData.load_geocodes_data`) -/

/-- One data line of the geocode csv, after `line.rstrip().split(',')`.
`nfields` is the number of comma-separated fields of the line; the other
fields are the values the loader reads positionally: `state = line_data[2]`,
`county = line_data[5]`, `lat = float(line_data[3])`,
`lon = float(line_data[4])`, `population = int(line_data[10])`. -/
structure GeoRow where
  nfields : Nat
  state : String
  county : String
  lat : ℚ
  lon : ℚ
  population : Int
  deriving DecidableEq, Repr

/-- One value of `geo_dict[state][county]`: keys `lat`, `lon`, `population`,
`largest_city`. -/
structure GeoRecord where
  lat : ℚ
  lon : ℚ
  population : Int
  largest_city : Int
  deriving DecidableEq, Repr

/-- `geo_dict`: state abbreviation → county name → record. -/
abbrev GeoDict : Type := List (String × List (String × GeoRecord))

/-- Length of `geo_data_types`: the expected minimum field count of a
geocode line (12 columns, `zip` … `notes`). -/
def geo_data_types_len : Nat := 12

/-- Record built from the first sub-entry of a (state, county) key:
`{'lat': lat, 'lon': lon, 'population': population, 'largest_city': population}`. -/
def initRec (r : GeoRow) : GeoRecord :=
  { lat := r.lat, lon := r.lon, population := r.population, largest_city := r.population }

/-- Update of an existing record by a further sub-entry of the same key:
add the population to the total; when the sub-entry's own population
strictly exceeds `largest_city`, move `lat`/`lon`/`largest_city` to it. -/
def applyRow (rec : GeoRecord) (r : GeoRow) : GeoRecord :=
  let rec1 := { rec with population := rec.population + r.population }
  if r.population > rec.largest_city then
    { rec1 with lat := r.lat, lon := r.lon, largest_city := r.population }
  else rec1

/-- Processing of a single geocode data line (the body of the read loop of
`load_geocodes_data`): skip lines with fewer than 12 fields, otherwise
create or update `geo_dict[state][county]`. -/
def geoStep (geo : GeoDict) (r : GeoRow) : GeoDict :=
  if r.nfields < geo_data_types_len then geo
  else
    let inner := (alookup geo r.state).getD []
    match alookup inner r.county with
    | none => aupdate r.state (aupdate r.county (initRec r) inner) geo
    | some rec => aupdate r.state (aupdate r.county (applyRow rec r) inner) geo

/-- The read loop of `load_geocodes_data` over the data lines of the file,
starting from the `geo_dict` already in place. -/
def loadGeo (geo : GeoDict) (rows : List GeoRow) : GeoDict :=
  rows.foldl geoStep geo

/-- Sub-entries of the geocode source that reach the create-or-update code
for the key `(s, c)`: enough fields and matching state and county. -/
def relRows (rows : List GeoRow) (s c : String) : List GeoRow :=
  rows.filter fun r =>
    decide (geo_data_types_len ≤ r.nfields ∧ r.state = s ∧ r.county = c)

/-- The sub-entry whose lat/lon the loader keeps: starting from `r`, a later
row displaces the current best exactly when its population is strictly
larger. -/
def bestRow (r : GeoRow) : List GeoRow → GeoRow
  | [] => r
  | r2 :: rest => if r2.population > r.population then bestRow r2 rest else bestRow r rest

/-- `geo_dict` with every sub-record keyed by the empty county name removed. -/
def eraseEmptyCounties (geo : GeoDict) : GeoDict :=
  geo.map fun p => (p.1, p.2.filter fun q => decide (q.1 ≠ ""))

/-! ## Statistics ingestion (`CovidData.load_counties_data`, `validate_header`) -/

/-- `counties_data_types`: the four fixed leading column names. -/
def counties_data_types : List String := ["date", "county", "state", "fips"]

/-- `num_fixed_types = len(counties_data_types)`. -/
def num_fixed_types : Nat := counties_data_types.length

/-- Failure of `validate_header`: the `ValueError` naming the offending and
the expected column name, or Python's `IndexError` when the header has
fewer than four columns. -/
inductive HeaderErr where
  | mismatch (found expected : String)
  | indexError
  deriving DecidableEq, Repr

/-- `str.lower()`: lower-case every character. -/
def pyLower (s : String) : String := String.mk (s.data.map Char.toLower)

/-- The `for i in range(self.num_fixed_types)` loop of `validate_header`:
compare `data_types[i].lower()` with `counties_data_types[i]`, stopping at
the first failure. -/
def validateLoop (header : List String) : List (Nat × String) → Option HeaderErr
  | [] => none
  | (i, expected) :: rest =>
    match header.get? i with
    | none => some .indexError
    | some t =>
      if pyLower t ≠ expected then some (.mismatch t expected)
      else validateLoop header rest

/-- `CovidData.validate_header` on the comma-split header line: check the
four fixed columns case-insensitively and return the remaining column
names (`data_types[self.num_fixed_types:]`), the valid statistic names. -/
def validate_header (header : List String) : Except HeaderErr (List String) :=
  match validateLoop header counties_data_types.enum with
  | some e => .error e
  | none => .ok (header.drop num_fixed_types)

/-- One data line of the counties csv, after `line.rstrip().split(',')`.
`rdate` is the parsed `line_data[0]` (`date(int(y), int(m), int(d))` as a
triple), `county = line_data[1]`, `stateName = line_data[2]` (the full
state name, before abbreviation), `fips = line_data[3]`; `values` are the
statistic fields `line_data[4:]`, `none` for an empty field; the line has
`4 + values.length` comma-separated fields. -/
structure CovidRow where
  rdate : Nat × Nat × Nat
  county : String
  stateName : String
  fips : String
  values : List (Option Int)
  deriving DecidableEq, Repr

/-- One value of `covid_dict[state][county]`: the `'fips'` key plus one
integer per statistic name. -/
structure CovidRecord where
  fips : String
  stats : List (String × Int)
  deriving DecidableEq, Repr

/-- `covid_dict`: state abbreviation → county name → record. -/
abbrev CovidDict : Type := List (String × List (String × CovidRecord))

/-- Non-fatal messages printed by `load_counties_data`: the
incomplete-line warning and the duplicate-county warning. -/
inductive Warning where
  | incomplete
  | duplicate (county state : String)
  deriving DecidableEq, Repr

/-- Fatal ingestion failures: the two `RuntimeError`s for a missing input
path, the header `ValueError`, the `KeyError` from `us_state_abbrev`, and
the `FileNotFoundError` raised by `open` itself. -/
inductive LoadErr where
  | countiesNotFound
  | header (e : HeaderErr)
  | stateKeyError (name : String)
  | geocodesNotFound
  | openFileNotFound
  deriving DecidableEq, Repr

/-- The `for i, stat in enumerate(self.stat_names)` loop: enter each
statistic value under its name, an empty field (`none`) as 0. -/
def statLoop (init : List (String × Int)) (pairs : List (String × Option Int)) :
    List (String × Int) :=
  pairs.foldl (fun st p => aupdate p.1 (p.2.getD 0) st) init

/-- Processing of a single counties data line (the body of the read loop of
`load_counties_data`): skip and warn on a wrong field count, skip lines not
matching the target date, translate the state name (``KeyError`` when
unknown), then create the record or overwrite an existing one with a
duplicate warning. -/
def covidStep (abb : List (String × String)) (target : Option (Nat × Nat × Nat))
    (statNames : List String) (acc : CovidDict × List Warning) (r : CovidRow) :
    Except LoadErr (CovidDict × List Warning) :=
  if r.values.length ≠ statNames.length then
    .ok (acc.1, acc.2 ++ [.incomplete])
  else if target.isSome ∧ some r.rdate ≠ target then
    .ok acc
  else
    match alookup abb r.stateName with
    | none => .error (.stateKeyError r.stateName)
    | some state =>
      let inner := (alookup acc.1 state).getD []
      match alookup inner r.county with
      | none =>
        let rec1 : CovidRecord :=
          { fips := r.fips, stats := statLoop [] (statNames.zip r.values) }
        .ok (aupdate state (aupdate r.county rec1 inner) acc.1, acc.2)
      | some old =>
        let rec1 : CovidRecord :=
          { fips := r.fips, stats := statLoop old.stats (statNames.zip r.values) }
        .ok (aupdate state (aupdate r.county rec1 inner) acc.1,
             acc.2 ++ [.duplicate r.county state])

/-- The read loop of `load_counties_data` over the data lines. -/
def covidLoop (abb : List (String × String)) (target : Option (Nat × Nat × Nat))
    (statNames : List String) :
    List CovidRow → CovidDict × List Warning → Except LoadErr (CovidDict × List Warning)
  | [], acc => .ok acc
  | r :: rest, acc =>
    match covidStep abb target statNames acc r with
    | .error e => .error e
    | .ok acc' => covidLoop abb target statNames rest acc'

/-! ## Files and construction (`CovidData.__init__`) -/

/-- Parsed content of the counties csv: header line plus data lines. -/
structure CovidFile where
  header : List String
  rows : List CovidRow
  deriving DecidableEq

/-- Parsed content of the geocode csv (its header line is read and
discarded, never validated). -/
structure GeoFile where
  rows : List GeoRow
  deriving DecidableEq

/-- The two input paths as seen on disk: `none` models a path for which
`os.path.exists` is false (and for which `open` would raise). -/
structure FS where
  countiesFile : Option CovidFile
  geoFile : Option GeoFile
  deriving DecidableEq

/-- `CovidData.load_counties_data`: check that the counties path exists,
validate the header, then run the read loop over the data lines, on top of
whatever `covid_dict` already holds. -/
def load_counties_data (abb : List (String × String)) (target : Option (Nat × Nat × Nat))
    (fs : FS) (covid : CovidDict) :
    Except LoadErr (List String × CovidDict × List Warning) :=
  match fs.countiesFile with
  | none => .error .countiesNotFound
  | some file =>
    match validate_header file.header with
    | .error e => .error (.header e)
    | .ok statNames =>
      match covidLoop abb target statNames file.rows (covid, []) with
      | .error e => .error e
      | .ok (covid', warns) => .ok (statNames, covid', warns)

/-- `CovidData.load_geocodes_data`: as in the source, the existence check
`if not exists(self.counties_path)` tests the **counties** path (while its
error message names the geocodes file); only then is the geocodes path
opened, which raises `FileNotFoundError` itself when that file is absent. -/
def load_geocodes_data (fs : FS) (geo : GeoDict) : Except LoadErr GeoDict :=
  match fs.countiesFile with
  | none => .error .geocodesNotFound
  | some _ =>
    match fs.geoFile with
    | none => .error .openFileNotFound
    | some file => .ok (loadGeo geo file.rows)

/-- The class-level attributes `CovidData.covid_dict` and
`CovidData.geo_dict`: one process-wide pair of tables, shared by every
instance. -/
structure ProcState where
  covid : CovidDict
  geo : GeoDict
  deriving DecidableEq

/-- `CovidData.__init__`: run both ingestions eagerly, on top of the
process-wide tables `st`; return the updated tables and the instance's
`stat_names`. -/
def covidDataInit (st : ProcState) (abb : List (String × String))
    (target : Option (Nat × Nat × Nat)) (fs : FS) :
    Except LoadErr (ProcState × List String) :=
  match load_counties_data abb target fs st.covid with
  | .error e => .error e
  | .ok (names, covid', _warns) =>
    match load_geocodes_data fs st.geo with
    | .error e => .error e
    | .ok geo' => .ok (⟨covid', geo'⟩, names)

/-! ## Requests (`run.py`, `get_requests`) -/

/-- One data line of the request csv, `county,state,dist`, with
`dist = float(field 3)` already parsed. -/
structure ReqLine where
  county : String
  state : String
  dist : ℚ
  deriving DecidableEq, Repr

/-- One element of the request list built by `get_requests`. -/
structure Request where
  state : String
  county : String
  distance : ℚ
  deriving DecidableEq, Repr

/-- The fatal `RuntimeError("Invalid input data: ...")` wrapping the
`ValueError` raised for a distance above 1000 miles. -/
inductive ReqErr where
  | invalidInput
  deriving DecidableEq, Repr

/-- The read loop of `get_requests`: reject a line whose distance exceeds
1000.0 (the `ValueError` is re-raised as a fatal `RuntimeError`), else
append its request. -/
def getRequestsLoop : List ReqLine → List Request → Except ReqErr (List Request)
  | [], acc => .ok acc
  | l :: rest, acc =>
    if l.dist > 1000 then .error .invalidInput
    else getRequestsLoop rest
      (acc ++ [{ state := l.state, county := l.county, distance := l.dist }])

/-- `get_requests` on the data lines of the request csv. -/
def get_requests (lines : List ReqLine) : Except ReqErr (List Request) :=
  getRequestsLoop lines []

/-! ## Distance (`src/haversine.py`) -/

/-- `math.radians`. -/
noncomputable def radians (x : ℝ) : ℝ := x * Real.pi / 180

/-- `math.atan2`, by its standard case analysis on the signs of the
arguments. -/
noncomputable def atan2 (y x : ℝ) : ℝ :=
  if 0 < x then Real.arctan (y / x)
  else if x < 0 ∧ 0 ≤ y then Real.arctan (y / x) + Real.pi
  else if x < 0 ∧ y < 0 then Real.arctan (y / x) - Real.pi
  else if x = 0 ∧ 0 < y then Real.pi / 2
  else if x = 0 ∧ y < 0 then -(Real.pi / 2)
  else 0

/-- `haversine(origin, destination)`: great-circle distance with Earth
radius 6371 km, converted to miles by dividing by 1.60934. -/
noncomputable def haversine (origin destination : ℝ × ℝ) : ℝ :=
  let lat1 := origin.1
  let lon1 := origin.2
  let lat2 := destination.1
  let lon2 := destination.2
  let radius : ℝ := 6371
  let dlat := radians (lat2 - lat1)
  let dlon := radians (lon2 - lon1)
  let a := Real.sin (dlat / 2) * Real.sin (dlat / 2) +
    Real.cos (radians lat1) * Real.cos (radians lat2) *
      Real.sin (dlon / 2) * Real.sin (dlon / 2)
  let c := 2 * atan2 (Real.sqrt a) (Real.sqrt (1 - a))
  let d := radius * c
  d / 1.60934

/-! ## Aggregation (`CovidData.compute_stats`) -/

/-- Failures of `compute_stats`: the three `ValueError`s of its explicit
checks, the `KeyError` from `self.covid_dict[new_state]` when a state of
the geo table is absent from the covid table, and the `KeyError` from a
record missing the requested statistic key. -/
inductive CmpErr where
  | statNotFound
  | stateNotFound
  | countyNotFound
  | keyErrorState (state : String)
  | keyErrorStat (state county : String)
  deriving DecidableEq, Repr

/-- The `result` dictionary of `compute_stats`. -/
structure AggResult where
  state : String
  county : String
  fips : List String
  counties : List (String × String)
  stat : String
  population : Int
  stat_total : Int
  cords : ℚ × ℚ
  deriving DecidableEq, Repr

/-- Inner loop of `compute_stats` over the counties of one state
`ns`: skip empty county names; for a county within `dist` miles, look the
state up in `covid_dict` (Python's `KeyError` when absent), silently skip
a county absent from it, else accumulate the statistic, the geo
population, the `(county, state)` pair and the fips. -/
noncomputable def scanInner (covid : CovidDict) (stat : String) (origin : ℝ × ℝ)
    (dist : ℚ) (ns : String) :
    List (String × GeoRecord) → AggResult → Except CmpErr AggResult
  | [], res => .ok res
  | (nc, grec) :: rest, res =>
    if nc = "" then scanInner covid stat origin dist ns rest res
    else if haversine origin ((grec.lat : ℝ), (grec.lon : ℝ)) ≤ (dist : ℝ) then
      match alookup covid ns with
      | none => .error (.keyErrorState ns)
      | some inner =>
        match alookup inner nc with
        | none => scanInner covid stat origin dist ns rest res
        | some crec =>
          match alookup crec.stats stat with
          | none => .error (.keyErrorStat ns nc)
          | some v => scanInner covid stat origin dist ns rest
              { res with stat_total := res.stat_total + v,
                         population := res.population + grec.population,
                         counties := res.counties ++ [(nc, ns)],
                         fips := res.fips ++ [crec.fips] }
    else scanInner covid stat origin dist ns rest res

/-- Outer loop of `compute_stats` over every state of `geo_dict`. -/
noncomputable def scanOuter (covid : CovidDict) (stat : String) (origin : ℝ × ℝ)
    (dist : ℚ) : GeoDict → AggResult → Except CmpErr AggResult
  | [], res => .ok res
  | (ns, innerGeo) :: rest, res =>
    match scanInner covid stat origin dist ns innerGeo res with
    | .error e => .error e
    | .ok res' => scanOuter covid stat origin dist rest res'

/-- `CovidData.compute_stats`: check the statistic name, the state and the
county (in that order), resolve the origin coordinates, then scan every
geo entry. -/
noncomputable def compute_stats (geo : GeoDict) (covid : CovidDict)
    (stat_names : List String) (request : Request) (stat : String) :
    Except CmpErr AggResult :=
  if stat ∉ stat_names then .error .statNotFound
  else
    match alookup geo request.state with
    | none => .error .stateNotFound
    | some innerG =>
      match alookup innerG request.county with
      | none => .error .countyNotFound
      | some grec =>
        let origin : ℝ × ℝ := ((grec.lat : ℝ), (grec.lon : ℝ))
        let res0 : AggResult :=
          { state := request.state, county := request.county,
            fips := [], counties := [], stat := stat,
            population := 0, stat_total := 0, cords := (grec.lat, grec.lon) }
        scanOuter covid stat origin request.distance geo res0

/-- Bookkeeping for the aggregation loop: the entries included so far,
each with its geo record and its covid record.  `res` lists exactly their
keys and fips, and totals exactly their statistic values and geo
populations; every included entry is present in the covid table. -/
def IncWitness (covid : CovidDict) (stat : String) (res : AggResult)
    (inc : List ((String × String) × GeoRecord × CovidRecord)) : Prop :=
  res.counties = inc.map (fun q => q.1) ∧
  res.fips = inc.map (fun q => q.2.2.fips) ∧
  res.stat_total = (inc.map (fun q => (alookup q.2.2.stats stat).getD 0)).sum ∧
  res.population = (inc.map (fun q => q.2.1.population)).sum ∧
  ∀ q ∈ inc, alookup2 covid q.1.2 q.1.1 = some q.2.2

/-! ## The batch driver (`run.py`, `main`) -/

/-- Failures of a whole batch run. -/
inductive MainErr where
  | req (e : ReqErr)
  | load (e : LoadErr)
  | cmp (e : CmpErr)
  deriving DecidableEq, Repr

/-- The per-request loop of `main`: one `AggResult` per request, in
order. -/
noncomputable def computeAll (geo : GeoDict) (covid : CovidDict)
    (names : List String) (stat : String) :
    List Request → Except CmpErr (List AggResult)
  | [] => .ok []
  | req :: rest =>
    match compute_stats geo covid names req stat with
    | .error e => .error e
    | .ok res =>
      match computeAll geo covid names stat rest with
      | .error e => .error e
      | .ok results => .ok (res :: results)

/-- `main` after argument parsing: build the request list, construct the
dataset (both ingestions), then serve every request. -/
noncomputable def run_main (st : ProcState) (abb : List (String × String))
    (target : Option (Nat × Nat × Nat)) (fs : FS) (lines : List ReqLine)
    (stat : String) : Except MainErr (List AggResult) :=
  match get_requests lines with
  | .error e => .error (.req e)
  | .ok reqs =>
    match covidDataInit st abb target fs with
    | .error e => .error (.load e)
    | .ok (st', names) =>
      match computeAll st'.geo st'.covid names stat reqs with
      | .error e => .error (.cmp e)
      | .ok results => .ok results

/-! ## Association-list lemmas -/

theorem alookup_aupdate_self {β : Type} (l : List (String × β)) (k : String) (v : β) :
    alookup (aupdate k v l) k = some v := by
  induction l with
  | nil => simp [aupdate, alookup]
  | cons p rest ih =>
    by_cases h : p.1 = k
    · simp [aupdate, h, alookup]
    · simp [aupdate, h, alookup, ih]

theorem alookup_aupdate_ne {β : Type} (l : List (String × β)) (k k' : String) (v : β)
    (h : k ≠ k') : alookup (aupdate k v l) k' = alookup l k' := by
  induction l with
  | nil => simp [aupdate, alookup, h]
  | cons p rest ih =>
    by_cases hp : p.1 = k
    · simp [aupdate, hp, alookup, h]
    · simp [aupdate, hp, alookup, ih]

theorem akeys_aupdate {β : Type} (l : List (String × β)) (k : String) (v : β) :
    akeys (aupdate k v l) = if k ∈ akeys l then akeys l else akeys l ++ [k] := by
  induction l with
  | nil => simp [aupdate, akeys]
  | cons p rest ih =>
    by_cases hp : p.1 = k
    · simp [aupdate, hp, akeys] at *
    · simp only [aupdate, hp, if_false, akeys, List.map_cons, List.mem_cons]
      by_cases hk : k ∈ akeys rest
      · simp only [akeys] at hk ih
        simp [hk, ih, Ne.symm hp]
      · simp only [akeys] at hk ih
        simp [hk, ih, Ne.symm hp]

theorem alookup_isSome_iff_mem_akeys {β : Type} (l : List (String × β)) (k : String) :
    (alookup l k).isSome ↔ k ∈ akeys l := by
  induction l with
  | nil => simp [alookup, akeys]
  | cons p rest ih =>
    by_cases hp : p.1 = k
    · simp [alookup, hp, akeys]
    · simp [alookup, hp, akeys, ih, Ne.symm hp]

theorem aupdate_nodup_keys {β : Type} (l : List (String × β)) (k : String) (v : β)
    (h : (akeys l).Nodup) : (akeys (aupdate k v l)).Nodup := by
  rw [akeys_aupdate]
  by_cases hk : k ∈ akeys l
  · simpa [hk] using h
  · simp only [hk, if_false]
    simpa [List.nodup_append, hk] using h

theorem mem_aupdate {β : Type} (l : List (String × β)) (k : String) (v : β)
    (p : String × β) (h : p ∈ aupdate k v l) : p ∈ l ∨ p = (k, v) := by
  induction l with
  | nil => simpa [aupdate] using h
  | cons q rest ih =>
    by_cases hq : q.1 = k
    · simp only [aupdate, hq, if_true] at h
      rcases List.mem_cons.mp h with h1 | h1
      · right; exact h1
      · left; exact List.mem_cons_of_mem _ h1
    · simp only [aupdate, hq, if_false] at h
      rcases List.mem_cons.mp h with h1 | h1
      · left; rw [h1]; exact List.mem_cons_self _ _
      · rcases ih h1 with h2 | h2
        · left; exact List.mem_cons_of_mem _ h2
        · right; exact h2

theorem alookup_mem {β : Type} (l : List (String × β)) (k : String) (v : β)
    (h : alookup l k = some v) : (k, v) ∈ l := by
  induction l with
  | nil => simp [alookup] at h
  | cons p rest ih =>
    by_cases hp : p.1 = k
    · simp only [alookup, hp, if_true, Option.some.injEq] at h
      have hpk : p = (k, v) := by
        cases p
        simp_all
      rw [← hpk]
      exact List.mem_cons_self _ _
    · simp only [alookup, hp, if_false] at h
      exact List.mem_cons_of_mem _ (ih h)

theorem alookup2_update_same {β : Type} (d : List (String × List (String × β)))
    (s c : String) (v : β) (inner : List (String × β)) :
    alookup2 (aupdate s (aupdate c v inner) d) s c = some v := by
  simp [alookup2, alookup_aupdate_self]

theorem alookup2_update_other {β : Type} (d : List (String × List (String × β)))
    (rs rc s c : String) (v : β)
    (h : ¬(rs = s ∧ rc = c)) :
    alookup2 (aupdate rs (aupdate rc v ((alookup d rs).getD [])) d) s c =
      alookup2 d s c := by
  by_cases hs : rs = s
  · subst hs
    have hc : rc ≠ c := fun hc => h ⟨rfl, hc⟩
    simp only [alookup2, alookup_aupdate_self]
    rw [alookup_aupdate_ne _ _ _ _ hc]
    cases hd : alookup d rs with
    | none => simp [alookup]
    | some inner => simp
  · simp only [alookup2]
    rw [alookup_aupdate_ne _ _ _ _ hs]

theorem alookup2_update_preserves {β : Type} (d : List (String × List (String × β)))
    (k c' : String) (v : β) (s c : String) (r : β)
    (h : alookup2 d s c = some r) :
    ∃ r', alookup2 (aupdate k (aupdate c' v ((alookup d k).getD [])) d) s c = some r' := by
  by_cases hs : k = s
  · subst hs
    simp only [alookup2] at h
    cases hd : alookup d k with
    | none => rw [hd] at h; exact absurd h (by simp)
    | some inner =>
      rw [hd] at h
      simp only [alookup2, alookup_aupdate_self, hd, Option.getD_some]
      by_cases hc : c' = c
      · subst hc; exact ⟨v, by rw [alookup_aupdate_self]⟩
      · exact ⟨r, by rw [alookup_aupdate_ne _ _ _ _ hc]; exact h⟩
  · refine ⟨r, ?_⟩
    simp only [alookup2]
    rw [alookup_aupdate_ne _ _ _ _ hs]
    exact h

/-! ## Geocode ingestion lemmas -/

/-- Tracking one `(s, c)` key through the whole geocode read loop. -/
theorem loadGeo_key (rows : List GeoRow) (d : GeoDict) (s c : String) :
    alookup2 (loadGeo d rows) s c =
      match alookup2 d s c with
      | some rec => some ((relRows rows s c).foldl applyRow rec)
      | none =>
        match relRows rows s c with
        | [] => none
        | r :: rs => some (rs.foldl applyRow (initRec r)) := by
  induction rows generalizing d with
  | nil =>
    simp only [loadGeo, List.foldl_nil, relRows, List.filter_nil]
    cases alookup2 d s c <;> rfl
  | cons r rest ih =>
    have hstep : loadGeo d (r :: rest) = loadGeo (geoStep d r) rest := rfl
    rw [hstep]
    by_cases hskip : r.nfields < geo_data_types_len
    · have hP : ¬(geo_data_types_len ≤ r.nfields ∧ r.state = s ∧ r.county = c) := by
        intro hx; exact absurd hx.1 (by omega)
      have hgeo : geoStep d r = d := by simp [geoStep, hskip]
      have hrel : relRows (r :: rest) s c = relRows rest s c := by
        simp [relRows, List.filter_cons, hP]
      rw [hgeo, hrel, ih]
    · by_cases hkey : r.state = s ∧ r.county = c
      · have hP : geo_data_types_len ≤ r.nfields ∧ r.state = s ∧ r.county = c :=
          ⟨by omega, hkey⟩
        have hrel : relRows (r :: rest) s c = r :: relRows rest s c := by
          simp [relRows, List.filter_cons, hP]
        obtain ⟨hs, hc⟩ := hkey
        subst hs; subst hc
        cases hrec : alookup2 d r.state r.county with
        | none =>
          have hinner : alookup ((alookup d r.state).getD []) r.county = none := by
            simp only [alookup2] at hrec
            cases hd : alookup d r.state with
            | none => simp [alookup]
            | some inner => rw [hd] at hrec; simpa using hrec
          have hgeo : geoStep d r =
              aupdate r.state (aupdate r.county (initRec r) ((alookup d r.state).getD [])) d := by
            simp [geoStep, hskip, hinner]
          rw [hgeo, ih, alookup2_update_same _ _ _ _ _, hrel]
        | some rec =>
          have hd : ∃ inner, alookup d r.state = some inner ∧ alookup inner r.county = some rec := by
            simp only [alookup2] at hrec
            cases hd : alookup d r.state with
            | none => rw [hd] at hrec; exact absurd hrec (by simp)
            | some inner => rw [hd] at hrec; exact ⟨inner, rfl, hrec⟩
          obtain ⟨inner, hd1, hd2⟩ := hd
          have hinner : alookup ((alookup d r.state).getD []) r.county = some rec := by
            rw [hd1]; simpa using hd2
          have hgeo : geoStep d r =
              aupdate r.state (aupdate r.county (applyRow rec r) ((alookup d r.state).getD [])) d := by
            simp [geoStep, hskip, hinner]
          rw [hgeo, ih, alookup2_update_same _ _ _ _ _, hrel]
          simp
      · have hP : ¬(geo_data_types_len ≤ r.nfields ∧ r.state = s ∧ r.county = c) := by
          intro hx; exact hkey hx.2
        have hrel : relRows (r :: rest) s c = relRows rest s c := by
          simp [relRows, List.filter_cons, hP]
        have hkey' : ¬(r.state = s ∧ r.county = c) := hkey
        have hgeo : alookup2 (geoStep d r) s c = alookup2 d s c := by
          simp only [geoStep, hskip, if_false]
          cases hinner : alookup ((alookup d r.state).getD []) r.county with
          | none => exact alookup2_update_other d _ _ _ _ _ hkey'
          | some rec => exact alookup2_update_other d _ _ _ _ _ hkey'
        rw [ih, hgeo, hrel]

theorem foldl_applyRow_population (rs : List GeoRow) (rec : GeoRecord) :
    (rs.foldl applyRow rec).population =
      rec.population + (rs.map GeoRow.population).sum := by
  induction rs generalizing rec with
  | nil => simp
  | cons r rest ih =>
    have hpop : (applyRow rec r).population = rec.population + r.population := by
      simp only [applyRow]
      split <;> rfl
    simp only [List.foldl_cons, List.map_cons, List.sum_cons, ih, hpop]
    ring

theorem foldl_applyRow_best (rs : List GeoRow) (rec : GeoRecord) (x : GeoRow)
    (hlat : rec.lat = x.lat) (hlon : rec.lon = x.lon)
    (hbig : rec.largest_city = x.population) :
    (rs.foldl applyRow rec).lat = (bestRow x rs).lat ∧
      (rs.foldl applyRow rec).lon = (bestRow x rs).lon ∧
      (rs.foldl applyRow rec).largest_city = (bestRow x rs).population := by
  induction rs generalizing rec x with
  | nil => exact ⟨hlat, hlon, hbig⟩
  | cons r rest ih =>
    simp only [List.foldl_cons, bestRow]
    by_cases hgt : r.population > rec.largest_city
    · have hgt' : r.population > x.population := hbig ▸ hgt
      have happ : applyRow rec r =
          { lat := r.lat, lon := r.lon,
            population := rec.population + r.population, largest_city := r.population } := by
        simp [applyRow, hgt]
      rw [happ, if_pos hgt']
      exact ih _ r rfl rfl rfl
    · have hgt' : ¬ r.population > x.population := hbig ▸ hgt
      have happ : applyRow rec r = { rec with population := rec.population + r.population } := by
        simp [applyRow, hgt]
      rw [happ, if_neg hgt']
      exact ih _ x hlat hlon hbig

/-- C3: for every geocode source and every (state, county) key with at
least one non-skipped sub-entry, the resulting GeoRecord's population is
the sum of the populations of all sub-entries for that key, and its
lat/lon are those of the sub-entry with the single largest individual
population, the first such sub-entry winning ties (only a strictly greater
population displaces the marker). -/
theorem load_geocodes_population_latlon (rows : List GeoRow) (s c : String)
    (r : GeoRow) (rs : List GeoRow) (h : relRows rows s c = r :: rs) :
    ∃ rec, alookup2 (loadGeo [] rows) s c = some rec ∧
      rec.population = ((r :: rs).map GeoRow.population).sum ∧
      rec.lat = (bestRow r rs).lat ∧ rec.lon = (bestRow r rs).lon ∧
      rec.largest_city = (bestRow r rs).population := by
  have hkey := loadGeo_key rows [] s c
  have hnone : alookup2 ([] : GeoDict) s c = none := rfl
  rw [hnone, h] at hkey
  refine ⟨rs.foldl applyRow (initRec r), hkey, ?_, ?_⟩
  · rw [foldl_applyRow_population]
    simp [initRec]
  · exact foldl_applyRow_best rs (initRec r) r rfl rfl rfl

/-- C3 witness: two sub-entries of populations 100 and 300 for
(CA, Alameda) yield population 400 and the lat/lon of the 300-population
sub-entry. -/
theorem load_geocodes_population_latlon_witness :
    relRows [⟨12, "CA", "Alameda", 1, 2, 100⟩, ⟨13, "CA", "Alameda", 3, 4, 300⟩]
        "CA" "Alameda" =
      ⟨12, "CA", "Alameda", 1, 2, 100⟩ :: [⟨13, "CA", "Alameda", 3, 4, 300⟩] ∧
    ∃ rec, alookup2
        (loadGeo [] [⟨12, "CA", "Alameda", 1, 2, 100⟩, ⟨13, "CA", "Alameda", 3, 4, 300⟩])
        "CA" "Alameda" = some rec ∧
      rec.population = 400 ∧ rec.lat = 3 ∧ rec.lon = 4 := by
  refine ⟨by decide, ?_⟩
  obtain ⟨rec, h1, h2, h3, h4, _⟩ :=
    load_geocodes_population_latlon
      [⟨12, "CA", "Alameda", 1, 2, 100⟩, ⟨13, "CA", "Alameda", 3, 4, 300⟩]
      "CA" "Alameda" ⟨12, "CA", "Alameda", 1, 2, 100⟩
      [⟨13, "CA", "Alameda", 3, 4, 300⟩] (by decide)
  refine ⟨rec, h1, ?_, ?_, ?_⟩
  · simpa using h2
  · simpa [bestRow] using h3
  · simpa [bestRow] using h4

/-- C8: the geocode loader's existence check tests the wrong path.  With
the counties file present and the geocodes file absent, the guard passes
and the failure is the `FileNotFoundError` of `open` itself, not the
loader's intended `RuntimeError`; conversely, with the geocodes file
present and the counties file absent the guard fires even though the
geocodes file is readable.  Construction still aborts in both cases. -/
theorem load_geocodes_checks_wrong_path :
    load_geocodes_data ⟨some ⟨["date", "county", "state", "fips"], []⟩, none⟩ [] =
      .error .openFileNotFound ∧
    load_geocodes_data ⟨none, some ⟨[]⟩⟩ [] = .error .geocodesNotFound ∧
    covidDataInit ⟨[], []⟩ [] none
        ⟨some ⟨["date", "county", "state", "fips"], []⟩, none⟩ =
      .error .openFileNotFound :=
  ⟨rfl, rfl, by decide⟩

theorem getRequestsLoop_reject (lines : List ReqLine) (acc : List Request)
    (l : ReqLine) (hl : l ∈ lines) (hd : l.dist > 1000) :
    getRequestsLoop lines acc = .error .invalidInput := by
  induction lines generalizing acc with
  | nil => cases hl
  | cons l0 rest ih =>
    by_cases h0 : l0.dist > 1000
    · simp [getRequestsLoop, h0]
    · have hl' : l ∈ rest := by
        rcases List.mem_cons.mp hl with h | h
        · exact absurd (h ▸ hd) h0
        · exact h
      simp only [getRequestsLoop, if_neg h0]
      exact ih _ hl'

theorem getRequestsLoop_accept (lines : List ReqLine) (acc : List Request)
    (h : ∀ l ∈ lines, l.dist ≤ 1000) :
    getRequestsLoop lines acc =
      .ok (acc ++ lines.map fun l => ⟨l.state, l.county, l.dist⟩) := by
  induction lines generalizing acc with
  | nil => simp [getRequestsLoop]
  | cons l0 rest ih =>
    have h0 : ¬ l0.dist > 1000 := not_lt.mpr (h l0 (List.mem_cons_self _ _))
    simp only [getRequestsLoop, if_neg h0]
    rw [ih _ fun l hl => h l (List.mem_cons_of_mem _ hl)]
    simp

/-- C9: a request line whose radius exceeds 1000 miles makes the whole
request stage fail (and hence the run fails before any dataset is loaded
or any distance computed), while lines with radius at most 1000 — 1000
itself included — are all accepted into the request list in order. -/
theorem get_requests_radius_limit :
    (∀ (lines : List ReqLine) (l : ReqLine), l ∈ lines → l.dist > 1000 →
      get_requests lines = .error .invalidInput) ∧
    (∀ lines : List ReqLine, (∀ l ∈ lines, l.dist ≤ 1000) →
      get_requests lines = .ok (lines.map fun l => ⟨l.state, l.county, l.dist⟩)) ∧
    (∀ st abb target fs lines stat (l : ReqLine), l ∈ lines → l.dist > 1000 →
      run_main st abb target fs lines stat = .error (.req .invalidInput)) := by
  refine ⟨?_, ?_, ?_⟩
  · intro lines l hl hd
    exact getRequestsLoop_reject lines [] l hl hd
  · intro lines h
    simpa using getRequestsLoop_accept lines [] h
  · intro st abb target fs lines stat l hl hd
    have hreq : get_requests lines = .error .invalidInput :=
      getRequestsLoop_reject lines [] l hl hd
    simp [run_main, hreq]

/-- C9 witness: a 1001-mile request is rejected and the run aborts at the
request stage; a 1000-mile request is accepted. -/
theorem get_requests_radius_limit_witness :
    ((⟨"Alameda", "CA", 1001⟩ : ReqLine) ∈ [(⟨"Alameda", "CA", 1001⟩ : ReqLine)] ∧
      (⟨"Alameda", "CA", 1001⟩ : ReqLine).dist > 1000 ∧
      get_requests [⟨"Alameda", "CA", 1001⟩] = .error .invalidInput) ∧
    ((∀ l ∈ [(⟨"Contra Costa", "CA", 1000⟩ : ReqLine)], l.dist ≤ 1000) ∧
      get_requests [⟨"Contra Costa", "CA", 1000⟩] =
        .ok [⟨"CA", "Contra Costa", 1000⟩]) := by
  constructor
  · refine ⟨List.mem_singleton_self _, by norm_num, ?_⟩
    exact get_requests_radius_limit.1 _ _ (List.mem_singleton_self _) (by norm_num)
  · refine ⟨by decide, ?_⟩
    simpa using get_requests_radius_limit.2.1 [⟨"Contra Costa", "CA", 1000⟩] (by decide)

/-! ## Shared class-level state -/

theorem loadGeo_preserves (rows : List GeoRow) (d : GeoDict) (s c : String)
    (r : GeoRecord) (h : alookup2 d s c = some r) :
    ∃ r', alookup2 (loadGeo d rows) s c = some r' := by
  refine ⟨(relRows rows s c).foldl applyRow r, ?_⟩
  rw [loadGeo_key, h]

theorem covidStep_preserves (abb : List (String × String))
    (target : Option (Nat × Nat × Nat)) (names : List String)
    (acc out : CovidDict × List Warning) (r : CovidRow)
    (h : covidStep abb target names acc r = .ok out)
    (s c : String) (rec : CovidRecord) (hr : alookup2 acc.1 s c = some rec) :
    ∃ rec', alookup2 out.1 s c = some rec' := by
  by_cases h1 : r.values.length ≠ names.length
  · simp only [covidStep, if_pos h1] at h
    injection h with h2
    rw [← h2]
    exact ⟨rec, hr⟩
  · by_cases h2 : target.isSome ∧ some r.rdate ≠ target
    · simp only [covidStep, if_neg h1, if_pos h2] at h
      injection h with h3
      rw [← h3]
      exact ⟨rec, hr⟩
    · simp only [covidStep, if_neg h1, if_neg h2] at h
      cases habb : alookup abb r.stateName with
      | none => simp only [habb] at h; exact Except.noConfusion h
      | some state =>
        simp only [habb] at h
        cases hinner : alookup ((alookup acc.1 state).getD []) r.county with
        | none =>
          simp only [hinner] at h
          injection h with h3
          rw [← h3]
          exact alookup2_update_preserves acc.1 state r.county _ s c rec hr
        | some old =>
          simp only [hinner] at h
          injection h with h3
          rw [← h3]
          exact alookup2_update_preserves acc.1 state r.county _ s c rec hr

theorem covidLoop_preserves (abb : List (String × String))
    (target : Option (Nat × Nat × Nat)) (names : List String)
    (rows : List CovidRow) (acc out : CovidDict × List Warning)
    (h : covidLoop abb target names rows acc = .ok out)
    (s c : String) (rec : CovidRecord) (hr : alookup2 acc.1 s c = some rec) :
    ∃ rec', alookup2 out.1 s c = some rec' := by
  induction rows generalizing acc rec with
  | nil =>
    simp only [covidLoop] at h
    injection h with h2
    rw [← h2]
    exact ⟨rec, hr⟩
  | cons r rest ih =>
    simp only [covidLoop] at h
    cases hstep : covidStep abb target names acc r with
    | error e => simp only [hstep] at h; exact Except.noConfusion h
    | ok acc' =>
      simp only [hstep] at h
      obtain ⟨rec', hrec'⟩ :=
        covidStep_preserves abb target names acc acc' r hstep s c rec hr
      exact ih acc' h rec' hrec'

/-- C4: `covid_dict` and `geo_dict` are class-level, process-wide tables:
constructing a `CovidData` runs both loaders on top of whatever the tables
already hold, so every entry present before a successful construction is
still present after it, and a second construction over sources with no
data rows returns exactly the tables populated by the first — it never
starts from empty, private tables. -/
theorem covid_data_shared_state :
    (∀ st abb target fs st' names, covidDataInit st abb target fs = .ok (st', names) →
      (∀ s c r, alookup2 st.covid s c = some r →
        ∃ r', alookup2 st'.covid s c = some r') ∧
      (∀ s c r, alookup2 st.geo s c = some r →
        ∃ r', alookup2 st'.geo s c = some r')) ∧
    (∀ st abb target header names, validate_header header = .ok names →
      covidDataInit st abb target ⟨some ⟨header, []⟩, some ⟨[]⟩⟩ = .ok (st, names)) := by
  constructor
  · intro st abb target fs st' names h
    simp only [covidDataInit] at h
    cases hload : load_counties_data abb target fs st.covid with
    | error e => simp only [hload] at h; exact Except.noConfusion h
    | ok out =>
      obtain ⟨names0, covid', warns⟩ := out
      simp only [hload] at h
      cases hgeo : load_geocodes_data fs st.geo with
      | error e => simp only [hgeo] at h; exact Except.noConfusion h
      | ok geo' =>
        simp only [hgeo] at h
        injection h with h1
        have hst : (⟨covid', geo'⟩ : ProcState) = st' := congrArg Prod.fst h1
        subst hst
        constructor
        · intro s c r hr
          simp only [load_counties_data] at hload
          cases hcf : fs.countiesFile with
          | none => simp only [hcf] at hload; exact Except.noConfusion hload
          | some file =>
            simp only [hcf] at hload
            cases hv : validate_header file.header with
            | error e => simp only [hv] at hload; exact Except.noConfusion hload
            | ok statNames =>
              simp only [hv] at hload
              cases hloop : covidLoop abb target statNames file.rows (st.covid, []) with
              | error e => simp only [hloop] at hload; exact Except.noConfusion hload
              | ok out' =>
                obtain ⟨covid'', warns'⟩ := out'
                simp only [hloop] at hload
                injection hload with hl1
                obtain ⟨rec', hrec'⟩ :=
                  covidLoop_preserves abb target statNames file.rows
                    (st.covid, []) (covid'', warns') hloop s c r hr
                refine ⟨rec', ?_⟩
                have hcv : covid'' = covid' := by
                  have := congrArg (fun q => q.2.1) hl1
                  simpa using this
                show alookup2 covid' s c = some rec'
                rw [← hcv]
                exact hrec'
        · intro s c r hr
          simp only [load_geocodes_data] at hgeo
          cases hcf : fs.countiesFile with
          | none => simp only [hcf] at hgeo; exact Except.noConfusion hgeo
          | some file =>
            simp only [hcf] at hgeo
            cases hgf : fs.geoFile with
            | none => simp only [hgf] at hgeo; exact Except.noConfusion hgeo
            | some gfile =>
              simp only [hgf] at hgeo
              injection hgeo with hg1
              obtain ⟨r', hr'⟩ := loadGeo_preserves gfile.rows st.geo s c r hr
              refine ⟨r', ?_⟩
              show alookup2 geo' s c = some r'
              rw [← hg1]
              exact hr'
  · intro st abb target header names hh
    simp [covidDataInit, load_counties_data, hh, covidLoop, load_geocodes_data,
          loadGeo]

/-- C4 witness: a second construction over empty sources observes the
tables already populated by an earlier instance. -/
theorem covid_data_shared_state_witness :
    validate_header ["date", "county", "state", "fips", "cases"] = .ok ["cases"] ∧
    covidDataInit ⟨[("CA", [("Alameda", ⟨"06001", [("cases", 5)]⟩)])],
                   [("CA", [("Alameda", ⟨1, 2, 3, 3⟩)])]⟩ [] none
        ⟨some ⟨["date", "county", "state", "fips", "cases"], []⟩, some ⟨[]⟩⟩ =
      .ok (⟨[("CA", [("Alameda", ⟨"06001", [("cases", 5)]⟩)])],
            [("CA", [("Alameda", ⟨1, 2, 3, 3⟩)])]⟩, ["cases"]) := by
  refine ⟨by decide, ?_⟩
  exact covid_data_shared_state.2 _ [] none _ _ (by decide)

/-- C1 counterexample: a geocode sub-entry with an empty county name does
create a record at ingestion time — after loading the single sub-entry
(state XX, county name empty, population 50), `geo_dict["XX"][""]`
exists, holding that sub-entry's data. -/
theorem load_geocodes_empty_county_creates_record :
    alookup2 (loadGeo [] [⟨12, "XX", "", 7, 8, 50⟩]) "XX" "" =
      some ⟨7, 8, 50, 50⟩ := by decide

/-! ## Statistics ingestion: duplicate policy -/

theorem statLoop_lookup_not_mem (pairs : List (String × Option Int))
    (init : List (String × Int)) (n : String) (h : n ∉ pairs.map Prod.fst) :
    alookup (statLoop init pairs) n = alookup init n := by
  induction pairs generalizing init with
  | nil => rfl
  | cons p rest ih =>
    simp only [List.map_cons, List.mem_cons] at h
    push_neg at h
    simp only [statLoop, List.foldl_cons]
    have hfold : List.foldl (fun st p => aupdate p.1 (p.2.getD 0) st)
        (aupdate p.1 (p.2.getD 0) init) rest =
        statLoop (aupdate p.1 (p.2.getD 0) init) rest := rfl
    rw [hfold, ih _ h.2]
    exact alookup_aupdate_ne _ _ _ _ (fun hx => h.1 hx.symm)

theorem statLoop_lookup (names : List String) (vals : List (Option Int))
    (init : List (String × Int)) (hnd : names.Nodup)
    (hlen : vals.length = names.length) (i : Nat) (hi : i < names.length) :
    alookup (statLoop init (names.zip vals)) (names.get ⟨i, hi⟩) =
      some ((vals.get ⟨i, by omega⟩).getD 0) := by
  induction names generalizing vals init i with
  | nil => cases hi
  | cons n ns ih =>
    cases vals with
    | nil => simp at hlen
    | cons v vs =>
      have hlen' : vs.length = ns.length := by simpa using hlen
      cases i with
      | zero =>
        simp only [List.zip_cons_cons, statLoop, List.foldl_cons, List.get]
        have hmem : n ∉ (ns.zip vs).map Prod.fst := by
          rw [List.map_fst_zip ns vs (le_of_eq hlen'.symm)]
          exact (List.nodup_cons.mp hnd).1
        rw [show List.foldl (fun st p => aupdate p.1 (p.2.getD 0) st)
            (aupdate n (v.getD 0) init) (ns.zip vs) =
            statLoop (aupdate n (v.getD 0) init) (ns.zip vs) from rfl]
        rw [statLoop_lookup_not_mem _ _ _ hmem]
        exact alookup_aupdate_self _ _ _
      | succ j =>
        have hj : j < ns.length := by simpa using hi
        simp only [List.zip_cons_cons, statLoop, List.foldl_cons, List.get]
        rw [show List.foldl (fun st p => aupdate p.1 (p.2.getD 0) st)
            (aupdate n (v.getD 0) init) (ns.zip vs) =
            statLoop (aupdate n (v.getD 0) init) (ns.zip vs) from rfl]
        exact ih vs _ (List.nodup_cons.mp hnd).2 hlen' j hj

theorem covidStep_nodup (abb : List (String × String))
    (target : Option (Nat × Nat × Nat)) (names : List String)
    (acc out : CovidDict × List Warning) (r : CovidRow)
    (h : covidStep abb target names acc r = .ok out)
    (hnd : dictKeysNodup acc.1) : dictKeysNodup out.1 := by
  have hupd : ∀ state (rec1 : CovidRecord),
      dictKeysNodup (aupdate state
        (aupdate r.county rec1 ((alookup acc.1 state).getD [])) acc.1) := by
    intro state rec1
    constructor
    · exact aupdate_nodup_keys _ _ _ hnd.1
    · intro p hp
      rcases mem_aupdate _ _ _ _ hp with hp1 | hp1
      · exact hnd.2 p hp1
      · rw [hp1]
        refine aupdate_nodup_keys _ _ _ ?_
        cases hal : alookup acc.1 state with
        | none => simp [akeys]
        | some inner0 =>
          simp only [hal, Option.getD_some]
          exact hnd.2 (state, inner0) (alookup_mem _ _ _ hal)
  by_cases h1 : r.values.length ≠ names.length
  · simp only [covidStep, if_pos h1] at h
    injection h with h2
    rw [← h2]
    exact hnd
  · by_cases h2 : target.isSome ∧ some r.rdate ≠ target
    · simp only [covidStep, if_neg h1, if_pos h2] at h
      injection h with h3
      rw [← h3]
      exact hnd
    · simp only [covidStep, if_neg h1, if_neg h2] at h
      cases habb : alookup abb r.stateName with
      | none => simp only [habb] at h; exact Except.noConfusion h
      | some state =>
        simp only [habb] at h
        cases hinner : alookup ((alookup acc.1 state).getD []) r.county with
        | none =>
          simp only [hinner] at h
          injection h with h3
          rw [← h3]
          exact hupd state _
        | some old =>
          simp only [hinner] at h
          injection h with h3
          rw [← h3]
          exact hupd state _

theorem covidLoop_nodup (abb : List (String × String))
    (target : Option (Nat × Nat × Nat)) (names : List String)
    (rows : List CovidRow) (acc out : CovidDict × List Warning)
    (h : covidLoop abb target names rows acc = .ok out)
    (hnd : dictKeysNodup acc.1) : dictKeysNodup out.1 := by
  induction rows generalizing acc with
  | nil =>
    simp only [covidLoop] at h
    injection h with h2
    rw [← h2]
    exact hnd
  | cons r rest ih =>
    simp only [covidLoop] at h
    cases hstep : covidStep abb target names acc r with
    | error e => simp only [hstep] at h; exact Except.noConfusion h
    | ok acc' =>
      simp only [hstep] at h
      exact ih acc' h (covidStep_nodup abb target names acc acc' r hstep hnd)

/-- C5: after statistics ingestion every (state, county) key holds at most
one record, and a later qualifying row hitting an occupied key overwrites
the record's fips and every statistic value with its own, emits a
duplicate warning, and ingestion continues over the remaining rows. -/
theorem load_counties_duplicate_policy :
    (∀ abb target names rows (covid : CovidDict) (warns : List Warning) out,
      covidLoop abb target names rows (covid, warns) = .ok out →
      dictKeysNodup covid → dictKeysNodup out.1) ∧
    (∀ abb (target : Option (Nat × Nat × Nat)) (names : List String)
       (rest : List CovidRow) (dict : CovidDict) (warns : List Warning)
       (r : CovidRow) (st : String) (old : CovidRecord)
       (hlen : r.values.length = names.length)
       (hdate : ¬(target.isSome ∧ some r.rdate ≠ target))
       (habb : alookup abb r.stateName = some st)
       (hold : alookup2 dict st r.county = some old),
      ∃ dict', covidLoop abb target names (r :: rest) (dict, warns) =
          covidLoop abb target names rest (dict', warns ++ [.duplicate r.county st]) ∧
        alookup2 dict' st r.county =
          some ⟨r.fips, statLoop old.stats (names.zip r.values)⟩ ∧
        (names.Nodup → ∀ i (hi : i < names.length),
          alookup (statLoop old.stats (names.zip r.values)) (names.get ⟨i, hi⟩) =
            some ((r.values.get ⟨i, by omega⟩).getD 0))) := by
  constructor
  · intro abb target names rows covid warns out h hnd
    exact covidLoop_nodup abb target names rows (covid, warns) out h hnd
  · intro abb target names rest dict warns r st old hlen hdate habb hold
    have hinner : alookup ((alookup dict st).getD []) r.county = some old := by
      simp only [alookup2] at hold
      cases hd : alookup dict st with
      | none => rw [hd] at hold; exact absurd hold (by simp)
      | some inner0 => rw [hd] at hold; simpa using hold
    have hstep : covidStep abb target names (dict, warns) r =
        .ok (aupdate st (aupdate r.county
              ⟨r.fips, statLoop old.stats (names.zip r.values)⟩
              ((alookup dict st).getD [])) dict,
            warns ++ [.duplicate r.county st]) := by
      simp only [covidStep, if_neg (by omega : ¬ r.values.length ≠ names.length),
        if_neg hdate, habb, hinner]
    refine ⟨aupdate st (aupdate r.county
        ⟨r.fips, statLoop old.stats (names.zip r.values)⟩
        ((alookup dict st).getD [])) dict, ?_, ?_, ?_⟩
    · simp only [covidLoop, hstep]
    · exact alookup2_update_same _ _ _ _ _
    · intro hnd i hi
      exact statLoop_lookup names r.values old.stats hnd hlen i hi

/-- C5 witness: a second qualifying row for (CA, Alameda) overwrites the
existing record's fips and statistic value, with a duplicate warning. -/
theorem load_counties_duplicate_policy_witness :
    ((⟨(2020, 5, 1), "Alameda", "California", "06001b", [some 7]⟩ : CovidRow).values.length =
        (["cases"] : List String).length ∧
      ¬((none : Option (Nat × Nat × Nat)).isSome ∧
        some (⟨(2020, 5, 1), "Alameda", "California", "06001b", [some 7]⟩ : CovidRow).rdate ≠
          (none : Option (Nat × Nat × Nat))) ∧
      alookup [("California", "CA")]
        (⟨(2020, 5, 1), "Alameda", "California", "06001b", [some 7]⟩ : CovidRow).stateName =
        some "CA" ∧
      alookup2 [("CA", [("Alameda", (⟨"06001", [("cases", 1)]⟩ : CovidRecord))])] "CA"
        (⟨(2020, 5, 1), "Alameda", "California", "06001b", [some 7]⟩ : CovidRow).county =
        some ⟨"06001", [("cases", 1)]⟩) ∧
    (∃ dict', covidLoop [("California", "CA")] none ["cases"]
          [⟨(2020, 5, 1), "Alameda", "California", "06001b", [some 7]⟩]
          ([("CA", [("Alameda", ⟨"06001", [("cases", 1)]⟩)])], []) =
        covidLoop [("California", "CA")] none ["cases"] []
          (dict', [] ++ [.duplicate "Alameda" "CA"]) ∧
      alookup2 dict' "CA" "Alameda" =
        some ⟨"06001b", statLoop [("cases", 1)] ((["cases"] : List String).zip [some 7])⟩ ∧
      ((["cases"] : List String).Nodup → ∀ i (hi : i < (["cases"] : List String).length),
        alookup (statLoop [("cases", 1)] ((["cases"] : List String).zip [some 7]))
            ((["cases"] : List String).get ⟨i, hi⟩) =
          some ((([some 7] : List (Option Int)).get ⟨i, by simpa using hi⟩).getD 0))) := by
  refine ⟨⟨by decide, by decide, by decide, by decide⟩, ?_⟩
  exact load_counties_duplicate_policy.2 [("California", "CA")] none ["cases"] []
    [("CA", [("Alameda", ⟨"06001", [("cases", 1)]⟩)])] []
    ⟨(2020, 5, 1), "Alameda", "California", "06001b", [some 7]⟩ "CA"
    ⟨"06001", [("cases", 1)]⟩ (by decide) (by decide) (by decide) (by decide)

/-! ## Header validation -/

theorem counties_enum :
    counties_data_types.enum = [(0, "date"), (1, "county"), (2, "state"), (3, "fips")] := by
  decide

theorem validate_header_ok (header : List String)
    (hmatch : ∀ i (hi : i < counties_data_types.length),
      (header.get? i).map pyLower = some (counties_data_types.get ⟨i, hi⟩)) :
    validate_header header = .ok (header.drop num_fixed_types) := by
  have h0 := hmatch 0 (by decide)
  have h1 := hmatch 1 (by decide)
  have h2 := hmatch 2 (by decide)
  have h3 := hmatch 3 (by decide)
  simp only [counties_data_types, List.get] at h0 h1 h2 h3
  obtain ⟨t0, ht0, hl0⟩ := Option.map_eq_some'.mp h0
  obtain ⟨t1, ht1, hl1⟩ := Option.map_eq_some'.mp h1
  obtain ⟨t2, ht2, hl2⟩ := Option.map_eq_some'.mp h2
  obtain ⟨t3, ht3, hl3⟩ := Option.map_eq_some'.mp h3
  simp only [List.get?_eq_getElem?] at ht0 ht1 ht2 ht3
  simp [validate_header, counties_enum, validateLoop, ht0, ht1, ht2, ht3,
        hl0, hl1, hl2, hl3]

theorem validate_header_mismatch (header : List String) (i : Nat)
    (hi : i < counties_data_types.length) (t : String)
    (ht : header.get? i = some t)
    (hne : pyLower t ≠ counties_data_types.get ⟨i, hi⟩)
    (hprev : ∀ j (hj : j < i), (header.get? j).map pyLower =
      some (counties_data_types.get ⟨j, by omega⟩)) :
    validate_header header = .error (.mismatch t (counties_data_types.get ⟨i, hi⟩)) := by
  have hi4 : i < 4 := by simpa [counties_data_types] using hi
  interval_cases i
  · simp only [counties_data_types, List.get] at hne ⊢
    simp only [List.get?_eq_getElem?] at ht
    simp [validate_header, counties_enum, validateLoop, ht, hne]
  · obtain ⟨t0, ht0, hl0⟩ := Option.map_eq_some'.mp (hprev 0 (by omega))
    simp only [counties_data_types, List.get] at hne hl0 ⊢
    simp only [List.get?_eq_getElem?] at ht ht0
    simp [validate_header, counties_enum, validateLoop, ht, hne, ht0, hl0]
  · obtain ⟨t0, ht0, hl0⟩ := Option.map_eq_some'.mp (hprev 0 (by omega))
    obtain ⟨t1, ht1, hl1⟩ := Option.map_eq_some'.mp (hprev 1 (by omega))
    simp only [counties_data_types, List.get] at hne hl0 hl1 ⊢
    simp only [List.get?_eq_getElem?] at ht ht0 ht1
    simp [validate_header, counties_enum, validateLoop, ht, hne, ht0, hl0, ht1, hl1]
  · obtain ⟨t0, ht0, hl0⟩ := Option.map_eq_some'.mp (hprev 0 (by omega))
    obtain ⟨t1, ht1, hl1⟩ := Option.map_eq_some'.mp (hprev 1 (by omega))
    obtain ⟨t2, ht2, hl2⟩ := Option.map_eq_some'.mp (hprev 2 (by omega))
    simp only [counties_data_types, List.get] at hne hl0 hl1 hl2 ⊢
    simp only [List.get?_eq_getElem?] at ht ht0 ht1 ht2
    simp [validate_header, counties_enum, validateLoop, ht, hne, ht0, hl0, ht1, hl1,
          ht2, hl2]

/-- C6: a statistics header whose first four column names do not, in
order, case-insensitively match date/county/state/fips makes ingestion
fail with a schema error naming the first offending column and its
expected name, before any data row is processed (the outcome is the same
for every row list); a matching header makes exactly the columns after
the fixed four the valid statistic names. -/
theorem counties_header_schema :
    (∀ (header : List String) (i : Nat) (hi : i < counties_data_types.length)
       (t : String),
      header.get? i = some t →
      pyLower t ≠ counties_data_types.get ⟨i, hi⟩ →
      (∀ j (hj : j < i), (header.get? j).map pyLower =
        some (counties_data_types.get ⟨j, by omega⟩)) →
      validate_header header =
        .error (.mismatch t (counties_data_types.get ⟨i, hi⟩)) ∧
      ∀ abb target rows covid g,
        load_counties_data abb target ⟨some ⟨header, rows⟩, g⟩ covid =
          .error (.header (.mismatch t (counties_data_types.get ⟨i, hi⟩)))) ∧
    (∀ header : List String, (∀ i (hi : i < counties_data_types.length),
        (header.get? i).map pyLower = some (counties_data_types.get ⟨i, hi⟩)) →
      validate_header header = .ok (header.drop num_fixed_types)) := by
  constructor
  · intro header i hi t ht hne hprev
    have hv := validate_header_mismatch header i hi t ht hne hprev
    refine ⟨hv, ?_⟩
    intro abb target rows covid g
    simp [load_counties_data, hv]
  · exact validate_header_ok

/-- C6 witness: the header Date/County/STATE/fips/cases matches
case-insensitively and yields statistic names [cases]; the header
data/county/state/fips fails on its first column, for any row list. -/
theorem counties_header_schema_witness :
    ((∀ i (hi : i < counties_data_types.length),
        ((["Date", "County", "STATE", "fips", "cases"] : List String).get? i).map pyLower =
          some (counties_data_types.get ⟨i, hi⟩)) ∧
      validate_header ["Date", "County", "STATE", "fips", "cases"] =
        .ok (["Date", "County", "STATE", "fips", "cases"].drop num_fixed_types)) ∧
    ((["data", "county", "state", "fips"] : List String).get? 0 = some "data" ∧
      pyLower "data" ≠ counties_data_types.get ⟨0, by decide⟩ ∧
      validate_header ["data", "county", "state", "fips"] =
        .error (.mismatch "data" (counties_data_types.get ⟨0, by decide⟩)) ∧
      load_counties_data [] none
          ⟨some ⟨["data", "county", "state", "fips"],
            [⟨(2020, 5, 1), "Alameda", "California", "06001", []⟩]⟩, none⟩ [] =
        .error (.header (.mismatch "data" (counties_data_types.get ⟨0, by decide⟩)))) := by
  constructor
  · refine ⟨by decide, ?_⟩
    exact counties_header_schema.2 _ (by decide)
  · refine ⟨by decide, by decide, ?_, ?_⟩
    · exact (counties_header_schema.1 _ 0 (by decide) "data" (by decide) (by decide)
        (fun j hj => absurd hj (by omega))).1
    · exact (counties_header_schema.1 _ 0 (by decide) "data" (by decide) (by decide)
        (fun j hj => absurd hj (by omega))).2 [] none _ [] none

/-! ## Haversine lemmas -/

theorem radians_neg (x : ℝ) : radians (-x) = -radians x := by
  simp only [radians]
  ring

theorem haversine_comm (a b : ℝ × ℝ) : haversine a b = haversine b a := by
  have hsin : ∀ x y : ℝ,
      Real.sin (radians (x - y) / 2) = -Real.sin (radians (y - x) / 2) := by
    intro x y
    have hx : radians (x - y) / 2 = -(radians (y - x) / 2) := by
      rw [show x - y = -(y - x) by ring, radians_neg]
      ring
    rw [hx, Real.sin_neg]
  have ha : Real.sin (radians (b.1 - a.1) / 2) * Real.sin (radians (b.1 - a.1) / 2) +
      Real.cos (radians a.1) * Real.cos (radians b.1) *
        Real.sin (radians (b.2 - a.2) / 2) * Real.sin (radians (b.2 - a.2) / 2) =
      Real.sin (radians (a.1 - b.1) / 2) * Real.sin (radians (a.1 - b.1) / 2) +
      Real.cos (radians b.1) * Real.cos (radians a.1) *
        Real.sin (radians (a.2 - b.2) / 2) * Real.sin (radians (a.2 - b.2) / 2) := by
    rw [hsin b.1 a.1, hsin b.2 a.2]
    ring
  simp only [haversine]
  rw [ha]

theorem haversine_self (p : ℝ × ℝ) : haversine p p = 0 := by
  simp only [haversine, sub_self]
  have h0 : radians 0 = 0 := by simp [radians]
  rw [h0]
  norm_num [Real.sin_zero, Real.sqrt_zero, Real.sqrt_one, atan2, Real.arctan_zero]

/-- C10: the modelled haversine distance is symmetric and zero on
coincident points; it is the standard haversine formula with Earth radius
6371 km, divided by 1.60934 to give miles (see `haversine`). -/
theorem haversine_symmetric_and_zero :
    (∀ a b : ℝ × ℝ, haversine a b = haversine b a) ∧
    (∀ p : ℝ × ℝ, haversine p p = 0) :=
  ⟨haversine_comm, haversine_self⟩

/-! ## Aggregation: error analysis -/

theorem scanInner_err (covid : CovidDict) (stat : String) (origin : ℝ × ℝ)
    (dist : ℚ) (ns : String) (l : List (String × GeoRecord)) (res : AggResult)
    (e : CmpErr) (h : scanInner covid stat origin dist ns l res = .error e) :
    (∃ s, e = .keyErrorState s) ∨ (∃ s c, e = .keyErrorStat s c) := by
  induction l generalizing res with
  | nil => exact Except.noConfusion h
  | cons q rest ih =>
    obtain ⟨nc, grec⟩ := q
    by_cases hc : nc = ""
    · subst hc
      simp only [scanInner, if_pos rfl] at h
      exact ih _ h
    · by_cases hdist : haversine origin ((grec.lat : ℝ), (grec.lon : ℝ)) ≤ (dist : ℝ)
      · simp only [scanInner, if_neg hc, if_pos hdist] at h
        cases hcov : alookup covid ns with
        | none =>
          simp only [hcov] at h
          injection h with h1
          exact Or.inl ⟨ns, h1.symm⟩
        | some inner =>
          simp only [hcov] at h
          cases hin : alookup inner nc with
          | none =>
            simp only [hin] at h
            exact ih _ h
          | some crec =>
            simp only [hin] at h
            cases hst : alookup crec.stats stat with
            | none =>
              simp only [hst] at h
              injection h with h1
              exact Or.inr ⟨ns, nc, h1.symm⟩
            | some v =>
              simp only [hst] at h
              exact ih _ h
      · simp only [scanInner, if_neg hc, if_neg hdist] at h
        exact ih _ h

theorem scanOuter_err (covid : CovidDict) (stat : String) (origin : ℝ × ℝ)
    (dist : ℚ) (g : GeoDict) (res : AggResult) (e : CmpErr)
    (h : scanOuter covid stat origin dist g res = .error e) :
    (∃ s, e = .keyErrorState s) ∨ (∃ s c, e = .keyErrorStat s c) := by
  induction g generalizing res with
  | nil => exact Except.noConfusion h
  | cons q rest ih =>
    obtain ⟨ns, innerGeo⟩ := q
    simp only [scanOuter] at h
    cases hin : scanInner covid stat origin dist ns innerGeo res with
    | error e' =>
      simp only [hin] at h
      injection h with h1
      exact h1 ▸ scanInner_err covid stat origin dist ns innerGeo res e' hin
    | ok res' =>
      simp only [hin] at h
      exact ih _ h

/-- C7 counterexample: with the statistic known, the requested state in
geo_dict and the requested county in it, compute_stats still fails —
state XX of the geo table is absent from the covid table, and the loop's
`covid_dict[new_state]` access raises a KeyError.  So the three lookup
conditions (a), (b), (c) are not the only failure causes. -/
theorem compute_stats_fails_beyond_lookup_conditions :
    compute_stats [("XX", [("c", ⟨0, 0, 5, 5⟩)])] [] ["cases"]
        ⟨"XX", "c", 100⟩ "cases" = .error (.keyErrorState "XX") ∧
    "cases" ∈ (["cases"] : List String) ∧
    (alookup2 ([("XX", [("c", (⟨0, 0, 5, 5⟩ : GeoRecord))])] : GeoDict) "XX" "c").isSome := by
  refine ⟨?_, by decide, by decide⟩
  have hd : haversine (0 : ℝ × ℝ) (0 : ℝ × ℝ) ≤ (100 : ℝ) := by
    rw [haversine_self]
    norm_num
  simp [compute_stats, alookup, scanOuter, scanInner, hd]

/-- C7 (amended): the statistic check comes first, then the state check,
then the county check, and each of the three conditions produces its
lookup failure exactly; but once all three pass, compute_stats can still
fail with a KeyError when a within-radius geo entry's state (or
statistic key) is missing from the covid table, so the three conditions
are sufficient but not the only failure causes. -/
theorem compute_stats_lookup_errors (geo : GeoDict) (covid : CovidDict)
    (names : List String) (req : Request) (stat : String) :
    (stat ∉ names → compute_stats geo covid names req stat = .error .statNotFound) ∧
    (stat ∈ names → alookup geo req.state = none →
      compute_stats geo covid names req stat = .error .stateNotFound) ∧
    (stat ∈ names → ∀ innerG, alookup geo req.state = some innerG →
      alookup innerG req.county = none →
      compute_stats geo covid names req stat = .error .countyNotFound) ∧
    (compute_stats geo covid names req stat = .error .statNotFound → stat ∉ names) ∧
    (compute_stats geo covid names req stat = .error .stateNotFound →
      stat ∈ names ∧ alookup geo req.state = none) ∧
    (compute_stats geo covid names req stat = .error .countyNotFound →
      stat ∈ names ∧ ∃ innerG, alookup geo req.state = some innerG ∧
        alookup innerG req.county = none) := by
  refine ⟨?_, ?_, ?_, ?_, ?_, ?_⟩
  · intro h
    simp [compute_stats, h]
  · intro h hs
    have hni : ¬ stat ∉ names := not_not_intro h
    simp [compute_stats, hni, hs]
  · intro h innerG hs hc
    have hni : ¬ stat ∉ names := not_not_intro h
    simp [compute_stats, hni, hs, hc]
  · intro h
    by_cases hstat : stat ∉ names
    · exact hstat
    · exfalso
      simp only [compute_stats, if_neg hstat] at h
      cases hs : alookup geo req.state with
      | none => simp only [hs] at h; exact CmpErr.noConfusion (Except.error.inj h)
      | some innerG =>
        simp only [hs] at h
        cases hc : alookup innerG req.county with
        | none => simp only [hc] at h; exact CmpErr.noConfusion (Except.error.inj h)
        | some grec =>
          simp only [hc] at h
          rcases scanOuter_err _ _ _ _ _ _ _ h with ⟨s, hs'⟩ | ⟨s, c, hs'⟩ <;>
            exact CmpErr.noConfusion hs'
  · intro h
    by_cases hstat : stat ∉ names
    · exact absurd h (by simp [compute_stats, hstat])
    · refine ⟨not_not.mp hstat, ?_⟩
      cases hs : alookup geo req.state with
      | none => rfl
      | some innerG =>
        exfalso
        simp only [compute_stats, if_neg hstat, hs] at h
        cases hc : alookup innerG req.county with
        | none => simp only [hc] at h; exact CmpErr.noConfusion (Except.error.inj h)
        | some grec =>
          simp only [hc] at h
          rcases scanOuter_err _ _ _ _ _ _ _ h with ⟨s, hs'⟩ | ⟨s, c, hs'⟩ <;>
            exact CmpErr.noConfusion hs'
  · intro h
    by_cases hstat : stat ∉ names
    · exact absurd h (by simp [compute_stats, hstat])
    · refine ⟨not_not.mp hstat, ?_⟩
      cases hs : alookup geo req.state with
      | none =>
        exfalso
        simp only [compute_stats, if_neg hstat, hs] at h
        exact CmpErr.noConfusion (Except.error.inj h)
      | some innerG =>
        refine ⟨innerG, rfl, ?_⟩
        cases hc : alookup innerG req.county with
        | none => rfl
        | some grec =>
          exfalso
          simp only [compute_stats, if_neg hstat, hs, hc] at h
          rcases scanOuter_err _ _ _ _ _ _ _ h with ⟨s, hs'⟩ | ⟨s, c, hs'⟩ <;>
            exact CmpErr.noConfusion hs'

/-- C7 witness: an unknown statistic name fails with the statistic lookup
error, before anything else is examined. -/
theorem compute_stats_lookup_errors_witness :
    ("deaths" ∉ (["cases"] : List String)) ∧
    compute_stats [("CA", [("Alameda", ⟨1, 2, 3, 3⟩)])] [] ["cases"]
        ⟨"CA", "Alameda", 10⟩ "deaths" = .error .statNotFound :=
  ⟨by decide,
    (compute_stats_lookup_errors [("CA", [("Alameda", ⟨1, 2, 3, 3⟩)])] [] ["cases"]
      ⟨"CA", "Alameda", 10⟩ "deaths").1 (by decide)⟩

/-- C2 counterexample: a fully valid request over loaded tables still
raises: the geo table has a state ZZ absent from the covid table, the ZZ
entry is within radius, and `covid_dict["ZZ"]` raises a KeyError instead
of being silently excluded. -/
theorem compute_stats_raises_on_missing_state :
    compute_stats [("AA", [("a", ⟨0, 0, 10, 10⟩)]), ("ZZ", [("z", ⟨0, 0, 3, 3⟩)])]
        [("AA", [("a", ⟨"f1", [("cases", 7)]⟩)])] ["cases"]
        ⟨"AA", "a", 100⟩ "cases" = .error (.keyErrorState "ZZ") ∧
    (alookup2 ([("AA", [("a", (⟨0, 0, 10, 10⟩ : GeoRecord))]),
        ("ZZ", [("z", ⟨0, 0, 3, 3⟩)])] : GeoDict) "AA" "a").isSome ∧
    (alookup2 ([("AA", [("a", (⟨"f1", [("cases", 7)]⟩ : CovidRecord))])] : CovidDict)
        "AA" "a").isSome ∧
    alookup ([("AA", [("a", (⟨"f1", [("cases", 7)]⟩ : CovidRecord))])] : CovidDict)
        "ZZ" = none := by
  refine ⟨?_, by decide, by decide, by decide⟩
  have hd : haversine (0 : ℝ × ℝ) (0 : ℝ × ℝ) ≤ (100 : ℝ) := by
    rw [haversine_self]
    norm_num
  simp [compute_stats, alookup, scanOuter, scanInner, hd]

theorem scanInner_ok (covid : CovidDict) (stat : String) (origin : ℝ × ℝ)
    (dist : ℚ) (ns : String) (l : List (String × GeoRecord)) (res : AggResult)
    (inc : List ((String × String) × GeoRecord × CovidRecord))
    (hcov : (alookup covid ns).isSome)
    (hstats : ∀ p ∈ covid, ∀ q ∈ p.2, (alookup q.2.stats stat).isSome)
    (hw : IncWitness covid stat res inc) :
    ∃ res' inc', scanInner covid stat origin dist ns l res = .ok res' ∧
      IncWitness covid stat res' inc' := by
  induction l generalizing res inc with
  | nil => exact ⟨res, inc, rfl, hw⟩
  | cons q rest ih =>
    obtain ⟨nc, grec⟩ := q
    by_cases hc : nc = ""
    · subst hc
      simp only [scanInner, if_pos rfl]
      exact ih res inc hw
    · by_cases hdist : haversine origin ((grec.lat : ℝ), (grec.lon : ℝ)) ≤ (dist : ℝ)
      · simp only [scanInner, if_neg hc, if_pos hdist]
        obtain ⟨inn, hinn⟩ := Option.isSome_iff_exists.mp hcov
        simp only [hinn]
        cases hcrec : alookup inn nc with
        | none => exact ih res inc hw
        | some crec =>
          have hmem1 : (ns, inn) ∈ covid := alookup_mem _ _ _ hinn
          have hmem2 : (nc, crec) ∈ inn := alookup_mem _ _ _ hcrec
          obtain ⟨v, hv⟩ := Option.isSome_iff_exists.mp (hstats _ hmem1 _ hmem2)
          simp only [hv]
          obtain ⟨hw1, hw2, hw3, hw4, hw5⟩ := hw
          refine ih _ (inc ++ [((nc, ns), grec, crec)]) ⟨?_, ?_, ?_, ?_, ?_⟩
          · simp [hw1]
          · simp [hw2]
          · simp [hw3, hv]
          · simp [hw4]
          · intro q hq
            rcases List.mem_append.mp hq with hq1 | hq1
            · exact hw5 q hq1
            · rw [List.mem_singleton.mp hq1]
              show alookup2 covid ns nc = some crec
              simp only [alookup2, hinn]
              exact hcrec
      · simp only [scanInner, if_neg hc, if_neg hdist]
        exact ih res inc hw

theorem scanOuter_ok (covid : CovidDict) (stat : String) (origin : ℝ × ℝ)
    (dist : ℚ) (g : GeoDict) (res : AggResult)
    (inc : List ((String × String) × GeoRecord × CovidRecord))
    (hstates : ∀ p ∈ g, (alookup covid p.1).isSome)
    (hstats : ∀ p ∈ covid, ∀ q ∈ p.2, (alookup q.2.stats stat).isSome)
    (hw : IncWitness covid stat res inc) :
    ∃ res' inc', scanOuter covid stat origin dist g res = .ok res' ∧
      IncWitness covid stat res' inc' := by
  induction g generalizing res inc with
  | nil => exact ⟨res, inc, rfl, hw⟩
  | cons q rest ih =>
    obtain ⟨ns, innerGeo⟩ := q
    have hcov : (alookup covid ns).isSome := hstates (ns, innerGeo) (List.mem_cons_self _ _)
    obtain ⟨res', inc', hscan, hw'⟩ :=
      scanInner_ok covid stat origin dist ns innerGeo res inc hcov hstats hw
    simp only [scanOuter, hscan]
    exact ih res' inc' (fun p hp => hstates p (List.mem_cons_of_mem _ hp)) hw'

/-- C2 (amended): for a valid request, when every state key of the geo
table also appears in the covid table (and every covid record carries the
requested statistic), compute_stats returns a result; a geo county absent
from its state's covid entry is silently excluded, and the counties list,
fips list and both totals range over exactly the included entries, all of
which are present in the covid table.  (When a whole geo state is missing
from the covid table and lies within radius, compute_stats instead raises
a KeyError — see the counterexample.) -/
theorem compute_stats_silent_exclusion (geo : GeoDict) (covid : CovidDict)
    (names : List String) (req : Request) (stat : String)
    (hstat : stat ∈ names)
    (hsc : (alookup2 geo req.state req.county).isSome)
    (hstates : ∀ p ∈ geo, (alookup covid p.1).isSome)
    (hstats : ∀ p ∈ covid, ∀ q ∈ p.2, (alookup q.2.stats stat).isSome) :
    ∃ res inc, compute_stats geo covid names req stat = .ok res ∧
      IncWitness covid stat res inc := by
  have hni : ¬ stat ∉ names := not_not_intro hstat
  obtain ⟨grec0, hg⟩ := Option.isSome_iff_exists.mp hsc
  simp only [alookup2] at hg
  cases hsG : alookup geo req.state with
  | none => rw [hsG] at hg; exact absurd hg (by simp)
  | some innerG =>
    rw [hsG] at hg
    have hg' : alookup innerG req.county = some grec0 := by simpa using hg
    simp only [compute_stats, if_neg hni, hsG, hg']
    refine scanOuter_ok covid stat _ req.distance geo _ [] hstates hstats ?_
    simp [IncWitness]

/-- C2 witness: county b is in the geo table but not the covid table; the
aggregation succeeds and b is excluded from the result. -/
theorem compute_stats_silent_exclusion_witness :
    ("cases" ∈ (["cases"] : List String) ∧
      (alookup2 ([("AA", [("a", (⟨0, 0, 10, 10⟩ : GeoRecord)),
          ("b", ⟨0, 0, 20, 20⟩)])] : GeoDict) "AA" "a").isSome ∧
      (∀ p ∈ ([("AA", [("a", (⟨0, 0, 10, 10⟩ : GeoRecord)), ("b", ⟨0, 0, 20, 20⟩)])] :
          GeoDict),
        (alookup ([("AA", [("a", (⟨"f1", [("cases", 7)]⟩ : CovidRecord))])] : CovidDict)
          p.1).isSome) ∧
      (∀ p ∈ ([("AA", [("a", (⟨"f1", [("cases", 7)]⟩ : CovidRecord))])] : CovidDict),
        ∀ q ∈ p.2, (alookup q.2.stats "cases").isSome)) ∧
    (∃ res inc, compute_stats
        [("AA", [("a", ⟨0, 0, 10, 10⟩), ("b", ⟨0, 0, 20, 20⟩)])]
        [("AA", [("a", ⟨"f1", [("cases", 7)]⟩)])] ["cases"]
        ⟨"AA", "a", 100⟩ "cases" = .ok res ∧
      IncWitness [("AA", [("a", ⟨"f1", [("cases", 7)]⟩)])] "cases" res inc) := by
  refine ⟨⟨by decide, by decide, by decide, by decide⟩, ?_⟩
  exact compute_stats_silent_exclusion _ _ _ _ _ (by decide) (by decide) (by decide)
    (by decide)

/-! ## Empty county names -/

theorem alookup_map_snd {β γ : Type} (l : List (String × β)) (f : β → γ) (k : String) :
    alookup (l.map fun p => (p.1, f p.2)) k = (alookup l k).map f := by
  induction l with
  | nil => rfl
  | cons p rest ih =>
    by_cases hp : p.1 = k
    · simp [alookup, hp]
    · simp [alookup, hp, ih]

theorem alookup_filter_ne {β : Type} (l : List (String × β)) (k : String)
    (hk : k ≠ "") :
    alookup (l.filter fun q => decide (q.1 ≠ "")) k = alookup l k := by
  induction l with
  | nil => rfl
  | cons p rest ih =>
    rw [List.filter_cons]
    by_cases hp : p.1 = ""
    · have hpk : ¬ p.1 = k := fun h => hk (by rw [← h, hp])
      rw [if_neg (by simp [hp]), ih]
      obtain ⟨k0, v0⟩ := p
      simp only [alookup]
      rw [if_neg hpk]
    · rw [if_pos (decide_eq_true hp)]
      obtain ⟨k0, v0⟩ := p
      simp only [alookup]
      by_cases hpk : k0 = k
      · rw [if_pos hpk, if_pos hpk]
      · rw [if_neg hpk, if_neg hpk, ih]

theorem scanInner_filter (covid : CovidDict) (stat : String) (origin : ℝ × ℝ)
    (dist : ℚ) (ns : String) (l : List (String × GeoRecord)) (res : AggResult) :
    scanInner covid stat origin dist ns (l.filter fun q => decide (q.1 ≠ "")) res =
      scanInner covid stat origin dist ns l res := by
  induction l generalizing res with
  | nil => rfl
  | cons q rest ih =>
    obtain ⟨nc, grec⟩ := q
    rw [List.filter_cons]
    by_cases hc : nc = ""
    · rw [if_neg (by simp [hc]), ih res]
      subst hc
      simp [scanInner]
    · rw [if_pos (decide_eq_true hc)]
      simp only [scanInner, if_neg hc]
      by_cases hdist : haversine origin ((grec.lat : ℝ), (grec.lon : ℝ)) ≤ (dist : ℝ)
      · rw [if_pos hdist, if_pos hdist]
        cases hcov : alookup covid ns with
        | none => rfl
        | some inner =>
          dsimp only
          cases hin : alookup inner nc with
          | none => exact ih res
          | some crec =>
            dsimp only
            cases hst : alookup crec.stats stat with
            | none => rfl
            | some v => exact ih _
      · rw [if_neg hdist, if_neg hdist]
        exact ih res

theorem scanOuter_erase (covid : CovidDict) (stat : String) (origin : ℝ × ℝ)
    (dist : ℚ) (g : GeoDict) (res : AggResult) :
    scanOuter covid stat origin dist (eraseEmptyCounties g) res =
      scanOuter covid stat origin dist g res := by
  induction g generalizing res with
  | nil => rfl
  | cons q rest ih =>
    obtain ⟨ns, innerGeo⟩ := q
    simp only [eraseEmptyCounties, List.map_cons, scanOuter]
    rw [scanInner_filter]
    cases hin : scanInner covid stat origin dist ns innerGeo res with
    | error e => rfl
    | ok res' =>
      have := ih res'
      simpa [eraseEmptyCounties] using this

/-- C1 (amended): geocode sub-entries with an empty county name are NOT
skipped by ingestion — they create and update records keyed by the empty
county name (see the counterexample) — but compute_stats skips every
empty-keyed record, so for any request naming a non-empty county the
aggregation result is identical to the one over a geo table from which
all empty-county records have been removed: such records never reach the
totals, the counties list or the fips list. -/
theorem compute_stats_ignores_empty_counties (geo : GeoDict) (covid : CovidDict)
    (names : List String) (req : Request) (stat : String) (hc : req.county ≠ "") :
    compute_stats (eraseEmptyCounties geo) covid names req stat =
      compute_stats geo covid names req stat := by
  by_cases hstat : stat ∉ names
  · simp [compute_stats, hstat]
  · simp only [compute_stats, if_neg hstat]
    have hmap : alookup (eraseEmptyCounties geo) req.state =
        (alookup geo req.state).map fun inner =>
          inner.filter fun q => decide (q.1 ≠ "") :=
      alookup_map_snd geo _ req.state
    cases hsG : alookup geo req.state with
    | none => rw [hmap, hsG]; rfl
    | some innerG =>
      rw [hmap, hsG]
      simp only [Option.map_some']
      rw [alookup_filter_ne innerG req.county hc]
      cases hcG : alookup innerG req.county with
      | none => rfl
      | some grec =>
        exact scanOuter_erase covid stat _ req.distance geo _

/-- C1 witness: for the request (CA, Alameda) the aggregation over a geo
table containing an empty-county record equals the one over the table
with it removed. -/
theorem compute_stats_ignores_empty_counties_witness :
    ("Alameda" : String) ≠ "" ∧
    compute_stats (eraseEmptyCounties
        [("CA", [("Alameda", ⟨0, 0, 10, 10⟩), ("", ⟨0, 0, 99, 99⟩)])])
        [("CA", [("Alameda", ⟨"06001", [("cases", 7)]⟩)])] ["cases"]
        ⟨"CA", "Alameda", 100⟩ "cases" =
      compute_stats [("CA", [("Alameda", ⟨0, 0, 10, 10⟩), ("", ⟨0, 0, 99, 99⟩)])]
        [("CA", [("Alameda", ⟨"06001", [("cases", 7)]⟩)])] ["cases"]
        ⟨"CA", "Alameda", 100⟩ "cases" :=
  ⟨by decide,
    compute_stats_ignores_empty_counties
      [("CA", [("Alameda", ⟨0, 0, 10, 10⟩), ("", ⟨0, 0, 99, 99⟩)])]
      [("CA", [("Alameda", ⟨"06001", [("cases", 7)]⟩)])] ["cases"]
      ⟨"CA", "Alameda", 100⟩ "cases" (by decide)⟩

end Covid
